import Mathlib

/-!
Shallow embedding of the `clevercanyon/utilities.web` client modules:
the Analytics tracker (`src/Analytics.ts`, the guarded, length-enforcing
variant) and the DOM helper (`on` event delegation, `debounce`).

Browser effects (gtag dispatches, cookie writes, script attachment,
network fetches) are modelled as explicit logs threaded through an
`AState` record; fallible operations return `Except AErr`.  External
inputs (URL query variables, env configuration values, cookie jar,
gtag-resolved identifiers, the geolocation response, the do-not-track
flag) are gathered in an `Env` record.
-/

/-- Scalar-ish JS values that appear in event payloads. -/
inductive JSVal where
  | str (s : String)
  | num (n : Int)
  | boolv (b : Bool)
  | strList (l : List String)
  | obj (l : List (String × String))
  | nullv
  deriving DecidableEq, Repr

/-- True exactly for string values (the `$is.string` check). -/
def JSVal.isStr : JSVal → Bool
  | .str _ => true
  | _ => false

/-- Character length of a string value; 0 for non-strings. -/
def JSVal.strLen : JSVal → Nat
  | .str s => s.length
  | _ => 0

/-- Modelled from the spec: `$str.charLength` of the external
`clevercanyon/utilities` package (not part of this repository) counts the
characters of a string. -/
def charLength (s : String) : Nat := s.length

/-- Modelled from the spec: `$str.clip(s, { maxChars })` of the external
`clevercanyon/utilities` package length-clips a string to at most
`maxChars` characters. -/
def clip (s : String) (maxChars : Nat) : String := s.take maxChars

/-- First value bound to a key in an association list (JS-object read). -/
def lookupStr (l : List (String × String)) (k : String) : Option String :=
  (l.find? (fun kv => kv.1 == k)).map (fun kv => kv.2)

/-- JS truthiness of an optional string: present and non-empty. -/
def truthyOpt : Option String → Bool
  | some s => !(s == "")
  | none => false

/-- Resolved analytics configuration (`Config` in `Analytics.ts`). -/
structure Config where
  debug : Bool
  csGDPRScriptId : String
  ga4GtagId : String
  context : String
  subContext : String
  userId : String
  deriving DecidableEq, Repr

/-- Call-time setup options (`Partial<Config>`): absent fields fall back
to env- or cookie-sourced defaults. -/
structure SetupOpts where
  debug : Option Bool := none
  csGDPRScriptId : Option String := none
  ga4GtagId : Option String := none
  context : Option String := none
  subContext : Option String := none
  userId : Option String := none
  deriving DecidableEq, Repr

/-- Geolocation record (`GeoData` in `Analytics.ts`); every field optional. -/
structure GeoData where
  colo : Option String := none
  country : Option String := none
  city : Option String := none
  continent : Option String := none
  latitude : Option String := none
  longitude : Option String := none
  postalCode : Option String := none
  metroCode : Option String := none
  region : Option String := none
  regionCode : Option String := none
  timezone : Option String := none
  deriving DecidableEq, Repr

/-- Browser-supplied inputs, fixed for the page. -/
structure Env where
  queryVars : List (String × String) := []
  currentHost : String := ""
  currentPath : String := "/"
  cookies : List (String × String) := []
  envVars : List (String × String) := []
  gtagClientId : String := ""
  gtagSessionId : String := ""
  geo : GeoData := {}
  doNotTrack : Bool := false
  deriving DecidableEq, Repr

/-- One call dispatched to the `gtag` tag-manager global. -/
inductive GtagCall where
  | get (field : String)
  | event (name : String) (data : List (String × JSVal))
  | consentDefault (waitForUpdate : Nat)
      (adStorage analyticsStorage functionalityStorage personalizationStorage securityStorage : String)
  | js
  | configure (ga4Id : String) (debug : Bool)
  deriving DecidableEq, Repr

/-- True exactly for `gtag('event', ...)` dispatches. -/
def GtagCall.isEvent : GtagCall → Bool
  | .event _ _ => true
  | _ => false

/-- True exactly for the consent-default command. -/
def GtagCall.isConsentDefault : GtagCall → Bool
  | .consentDefault _ _ _ _ _ _ => true
  | _ => false

/-- Errors thrown by the module (each a distinct `Error` in the source). -/
inductive AErr where
  | alreadySetUp
  | notSetUp
  | missingGa4GtagId
  | eventNameTooLong
  | userIdTooLong
  | tooManyParams
  | paramKeyTooLong (k : String)
  | paramValueTooLong (k : String)
  | typeError
  deriving DecidableEq, Repr

/-- Module-level mutable state plus effect logs. -/
structure AState where
  isSetupComplete : Bool := false
  config : Option Config := none
  cacheGeoData : Option GeoData := none
  gtagLog : List GtagCall := []
  cookiesSet : List (String × String) := []
  scripts : List String := []
  fetches : Nat := 0
  clickHandlers : Nat := 0
  initialized : Bool := false
  deriving DecidableEq, Repr

/-- The pristine page-load state. -/
def AState.initial : AState := {}

/-- JS object assignment: overwrite in place if the key exists, else append
(first-insertion key order, later values win). -/
def objSet (o : List (String × JSVal)) (k : String) (v : JSVal) : List (String × JSVal) :=
  if o.any (fun kv => kv.1 == k) then
    o.map (fun kv => if kv.1 == k then (k, v) else kv)
  else o ++ [(k, v)]

/-- JS object spread: sequential assignment of every pair. -/
def objSpread (o : List (String × JSVal)) (adds : List (String × JSVal)) : List (String × JSVal) :=
  adds.foldl (fun acc kv => objSet acc kv.1 kv.2) o

/-- Env-sourced string default: `String($env.get(k) || dflt)`. -/
def envStrOr (env : Env) (k : String) (dflt : String) : String :=
  match lookupStr env.envVars k with
  | some v => if v == "" then dflt else v
  | none => dflt

/-- Cookie-sourced string default: `String($cookie.get(k) || '')`. -/
def cookieStrOr (env : Env) (k : String) : String :=
  match lookupStr env.cookies k with
  | some v => v
  | none => ""

/-- The configuration `setup` resolves via `$obj.defaults` (call-time
options win; otherwise env values, with the `utx_user_id` cookie feeding
the `userId` default). -/
def resolveConfig (env : Env) (opts : SetupOpts) : Config where
  debug := opts.debug.getD (truthyOpt (lookupStr env.envVars "APP_ANALYTICS_DEBUG"))
  ga4GtagId := opts.ga4GtagId.getD (envStrOr env "APP_ANALYTICS_GA4_GTAG_ID" "")
  csGDPRScriptId := opts.csGDPRScriptId.getD (envStrOr env "APP_ANALYTICS_CS_GDPR_SCRIPT_ID" "")
  context := opts.context.getD (envStrOr env "APP_ANALYTICS_CONTEXT" "web")
  subContext := opts.subContext.getD (envStrOr env "APP_ANALYTICS_SUB_CONTEXT" "site")
  userId := opts.userId.getD (cookieStrOr env "utx_user_id")

/-- The GA4 id `setup` ends up with for a given environment and options. -/
def resolvedGa4GtagId (env : Env) (opts : SetupOpts) : String :=
  (resolveConfig env opts).ga4GtagId

/-- `setup(configOpts)`: rejects a second call, marks the module set up,
resolves the configuration, then rejects a missing GA4 id.  Note the
set-up flag and the config are already written when the missing-id error
is thrown. -/
def setup (env : Env) (opts : SetupOpts) (s : AState) : Except AErr Unit × AState :=
  if s.isSetupComplete then (.error .alreadySetUp, s)
  else
    let cfg := resolveConfig env opts
    let s2 : AState := { s with isSetupComplete := true, config := some cfg }
    if cfg.ga4GtagId == "" then (.error .missingGa4GtagId, s2)
    else (.ok (), s2)

/-- `userId()`: guarded read of the configured user-id hash. -/
def userId (s : AState) : Except AErr String × AState :=
  if !s.isSetupComplete then (.error .notSetUp, s)
  else
    match s.config with
    | none => (.error .typeError, s)
    | some c => (.ok c.userId, s)

/-- `clientId()`: guarded `gtag('get', ..., 'client_id', resolve)` query;
the environment supplies the resolved `String(value || '')`. -/
def clientId (env : Env) (s : AState) : Except AErr String × AState :=
  if !s.isSetupComplete then (.error .notSetUp, s)
  else
    match s.config with
    | none => (.error .typeError, s)
    | some _ => (.ok env.gtagClientId, { s with gtagLog := s.gtagLog ++ [.get "client_id"] })

/-- `sessionId()`: guarded `gtag('get', ..., 'session_id', resolve)` query. -/
def sessionId (env : Env) (s : AState) : Except AErr String × AState :=
  if !s.isSetupComplete then (.error .notSetUp, s)
  else
    match s.config with
    | none => (.error .typeError, s)
    | some _ => (.ok env.gtagSessionId, { s with gtagLog := s.gtagLog ++ [.get "session_id"] })

/-- `geoData()`: guarded; serves the memoized record when present,
otherwise fetches once, caches and returns the response. -/
def geoData (env : Env) (s : AState) : Except AErr GeoData × AState :=
  if !s.isSetupComplete then (.error .notSetUp, s)
  else
    match s.cacheGeoData with
    | some g => (.ok g, s)
    | none => (.ok env.geo, { s with cacheGeoData := some env.geo, fetches := s.fetches + 1 })

/-- The fixed UTM-family query-variable names. -/
def utmNames : List String :=
  ["utm_source", "utm_medium", "utm_campaign", "utm_content", "utm_term", "utx_ref"]

/-- `$url.getQueryVars(names)`: the present query variables among `names`,
in that order (external URL helper, modelled as an association-list read). -/
def getQueryVars (env : Env) (names : List String) : List (String × String) :=
  names.filterMap (fun n => (lookupStr env.queryVars n).map (fun v => (n, v)))

/-- `utmXQueryVars()`: guarded extraction of the UTM-family variables. -/
def utmXQueryVars (env : Env) : List (String × String) :=
  getQueryVars env utmNames

/-- `utmXQueryVarDimensions()`: re-key each UTM variable with an `x_`
prefix, clipping the value to 100 characters. -/
def utmXQueryVarDimensions (env : Env) : List (String × JSVal) :=
  (utmXQueryVars env).map (fun nv => ("x_" ++ nv.1, JSVal.str (clip nv.2 100)))

/-- The event-payload object literal of `trackEvent`, assembled after the
three identifier promises resolve: base fields, optional user fields, the
context block, UTM dimensions, then caller props (later keys win). -/
def buildEventData (cfg : Config) (env : Env) (uid cid sid : String)
    (props : List (String × JSVal)) : List (String × JSVal) :=
  let base : List (String × JSVal) :=
    [("send_to", JSVal.strList [cfg.ga4GtagId]),
     ("x_client_id", JSVal.str (clip cid 100)),
     ("x_session_id", JSVal.str (clip sid 100))]
  let base :=
    if uid == "" then base
    else base ++
      [("user_id", JSVal.str (clip uid 256)),
       ("user_properties", JSVal.obj [("x_user_id", clip uid 36)])]
  let base := base ++
    [("x_context", JSVal.str (clip cfg.context 100)),
     ("x_sub_context", JSVal.str (clip cfg.subContext 100)),
     ("x_hostname", JSVal.str (clip env.currentHost 100))]
  objSpread (objSpread base (utmXQueryVarDimensions env)) props

/-- One payload entry violates a per-parameter cap: key over 40 chars, or
a string value over 100 chars. -/
def badEntry (kv : String × JSVal) : Bool :=
  decide (charLength kv.1 > 40) || (kv.2.isStr && decide (kv.2.strLen > 100))

/-- The per-entry validation loop of `trackEvent` over `Object.entries`. -/
def checkEntries : List (String × JSVal) → Except AErr Unit
  | [] => .ok ()
  | (k, v) :: rest =>
    if charLength k > 40 then .error (.paramKeyTooLong k)
    else if v.isStr && decide (v.strLen > 100) then .error (.paramValueTooLong k)
    else checkEntries rest

/-- `trackEvent(name, props)`: guard, name-length check, resolve the three
identifiers (the two `gtag('get', ...)` queries are logged), user-id
length check, payload assembly, the 25-parameter cap, per-entry caps, and
finally the single `gtag('event', name, eventData)` dispatch. -/
def trackEvent (env : Env) (name : String) (props : List (String × JSVal))
    (s : AState) : Except AErr Bool × AState :=
  if !s.isSetupComplete then (.error .notSetUp, s)
  else if charLength name > 40 then (.error .eventNameTooLong, s)
  else
    match userId s with
    | (.error e, s1) => (.error e, s1)
    | (.ok uid, s1) =>
      match clientId env s1 with
      | (.error e, s2) => (.error e, s2)
      | (.ok cid, s2) =>
        match sessionId env s2 with
        | (.error e, s3) => (.error e, s3)
        | (.ok sid, s3) =>
          if charLength uid > 36 then (.error .userIdTooLong, s3)
          else
            match s3.config with
            | none => (.error .typeError, s3)
            | some cfg =>
              let eventData := buildEventData cfg env uid cid sid props
              if eventData.length > 25 then (.error .tooManyParams, s3)
              else
                match checkEntries eventData with
                | .error e => (.error e, s3)
                | .ok () =>
                  (.ok true, { s3 with gtagLog := s3.gtagLog ++ [.event name eventData] })

/-- Minimal JSON string escaping (backslash and double quote). -/
def jsonEscape (s : String) : String :=
  s.foldl (fun acc c =>
    if c == '\\' then acc ++ "\\\\"
    else if c == '"' then acc ++ "\\\""
    else acc.push c) ""

/-- `JSON.stringify(obj, null, 2)` for a flat string-valued object. -/
def jsonStringify2 (l : List (String × String)) : String :=
  if l.isEmpty then "\x7b\x7d"
  else
    "\x7b\n" ++
      String.intercalate ",\n"
        (l.map (fun kv => "  \"" ++ jsonEscape kv.1 ++ "\": \"" ++ jsonEscape kv.2 ++ "\"")) ++
      "\n\x7d"

/-- `trackPageView(props)`: guard; when `utm_source` is truthy, write the
`utx_touch` cookie with the pretty-printed UTM snapshot; then delegate to
`trackEvent('page_view', props)`. -/
def trackPageView (env : Env) (props : List (String × JSVal))
    (s : AState) : Except AErr Bool × AState :=
  if !s.isSetupComplete then (.error .notSetUp, s)
  else
    let s1 :=
      if truthyOpt (lookupStr env.queryVars "utm_source") then
        { s with cookiesSet := s.cookiesSet ++ [("utx_touch", jsonStringify2 (utmXQueryVars env))] }
      else s
    trackEvent env "page_view" props s1

/-- Whitespace-token split of a string. -/
def splitWs (s : String) : List String :=
  (s.split Char.isWhitespace).filter (fun t => !(t == ""))

/-- A character allowed in a `click-id=` token value: `[a-z0-9_-]` under
the case-insensitive flag. -/
def clickIdChar (c : Char) : Bool :=
  c.isAlphanum || c == '_' || c == '-'

/-- The first capture of `/(?:^|\s)click-id=([a-z0-9_-]+)(?:$|\s)/iu` run
over a class attribute: the first whitespace-delimited token of the form
`click-id=<value>` whose value is non-empty and drawn from the allowed
alphabet (prefix matched case-insensitively, value returned verbatim). -/
def clickIdFromClass (classAttr : String) : Option String :=
  (splitWs classAttr).findSome? fun t =>
    if "click-id=".isPrefixOf t.toLower then
      let rest := t.drop 9
      if !(rest == "") && rest.all clickIdChar then some rest else none
    else none

/-- `innerText.replace(/\s+/gu, ' ').trim()`. -/
def normalizeWs (s : String) : String :=
  String.intercalate " " (splitWs s)

/-- First truthy (non-empty) string of a JS `||` chain, else the empty
string. -/
def firstTruthy (l : List String) : String :=
  ((l.find? (fun v => !(v == ""))).getD "")

/-- The attributes and text `trackClick` reads off the clicked element. -/
structure ClickElement where
  idAttr : Option String := none
  classAttr : Option String := none
  hrefAttr : Option String := none
  titleAttr : Option String := none
  valueAttr : Option String := none
  innerText : String := ""
  tagName : String := ""
  deriving DecidableEq, Repr

/-- The `event.target` an incoming click event carries: `null`, a node
without element attribute accessors, or an element. -/
inductive EvTarget where
  | nullTarget
  | nonElement
  | element (el : ClickElement)
  deriving DecidableEq, Repr

/-- `trackClick(event, props)`: guard, then unchecked attribute reads on
`event.target as HTMLElement` — a `null` or attribute-less target raises
a TypeError — then `trackEvent('x_click', ...)` with the derived flex
fields (each clipped to 100 chars) merged under the caller props. -/
def trackClick (env : Env) (target : EvTarget) (props : List (String × JSVal))
    (s : AState) : Except AErr Bool × AState :=
  if !s.isSetupComplete then (.error .notSetUp, s)
  else
    match target with
    | .nullTarget => (.error .typeError, s)
    | .nonElement => (.error .typeError, s)
    | .element el =>
      let idAttr := el.idAttr.getD ""
      let classAttr := el.classAttr.getD ""
      trackEvent env "x_click"
        (objSpread
          [("x_flex_id", JSVal.str (clip (firstTruthy [idAttr, (clickIdFromClass classAttr).getD ""]) 100)),
           ("x_flex_sub_id", JSVal.str (clip (el.hrefAttr.getD "") 100)),
           ("x_flex_value", JSVal.str (clip (firstTruthy [el.titleAttr.getD "", normalizeWs el.innerText, el.valueAttr.getD ""]) 100)),
           ("x_flex_sub_value", JSVal.str (clip el.tagName.toLower 100))]
          props) s

/-- `userHasDoNotTrackHeader()`: guarded read of the browser DNT flag. -/
def userHasDoNotTrackHeader (env : Env) (s : AState) : Except AErr Bool :=
  if !s.isSetupComplete then .error .notSetUp
  else .ok env.doNotTrack

/-- The privacy-page test `/^\/(?:privacy|cookies?)(?:[_-]policy)?(?:$|\/)/iu`
on the current path: a leading `/privacy`, `/cookie` or `/cookies`
segment, optionally suffixed `_policy` or `-policy`, then end of string
or a slash, case-insensitively. -/
def isPrivacyPath (path : String) : Bool :=
  let p := path.toLower
  ["/privacy", "/cookies", "/cookie"].any fun b =>
    ["", "_policy", "-policy"].any fun suf =>
      p == b ++ suf || String.isPrefixOf (b ++ suf ++ "/") p

/-- Hex digit of a number below 16. -/
def hexDigit (n : Nat) : Char :=
  if n < 10 then Char.ofNat (48 + n) else Char.ofNat (55 + n)

/-- Uppercase two-digit hex of a byte. -/
def byteToHex (b : UInt8) : String :=
  String.mk [hexDigit (b.toNat / 16), hexDigit (b.toNat % 16)]

/-- A byte that passes through `encodeURIComponent` unescaped. -/
def uriSafe (b : UInt8) : Bool :=
  let n := b.toNat
  (48 ≤ n && n ≤ 57) || (65 ≤ n && n ≤ 90) || (97 ≤ n && n ≤ 122) ||
    "-_.!~*()".any (fun c => c.toNat == n) || n == 39

/-- Modelled from the spec: `$url.encode` of the external utilities
package percent-encodes a string for URL embedding
(`encodeURIComponent`-style over UTF-8 bytes). -/
def urlEncode (s : String) : String :=
  s.toUTF8.toList.foldl
    (fun acc b => if uriSafe b then acc.push (Char.ofNat b.toNat) else acc ++ "%" ++ byteToHex b) ""

/-- `initialize()` (named `initializeA` here): guarded; emits the
`gtag('js', ...)` bootstrap and the GA4 `gtag('config', ...)` call, loads
the GA4 script, fires one (discarded) `trackPageView`, and registers the
delegated click handler. -/
def initializeA (env : Env) (s : AState) : Except AErr Unit × AState :=
  if !s.isSetupComplete then (.error .notSetUp, s)
  else
    match s.config with
    | none => (.error .typeError, s)
    | some cfg =>
      let s1 := { s with gtagLog := s.gtagLog ++ [GtagCall.js, GtagCall.configure cfg.ga4GtagId cfg.debug] }
      let s2 := { s1 with
        scripts := s1.scripts ++ ["https://www.googletagmanager.com/gtag/js?id=" ++ urlEncode cfg.ga4GtagId] }
      let s3 := (trackPageView env [] s2).2
      (.ok (), { s3 with clickHandlers := s3.clickHandlers + 1, initialized := true })

/-- `loadThenInitialize()` (named `loadThenInitializeA` here): guarded;
resolves geo data, and when the visitor is outside the US, has DNT set,
or is on a privacy page, emits the all-denied consent default with a
500ms grace period and only then — and only when a GDPR consent-script id
is configured — attaches the consent script, initializing once it loads
(`scriptLoads` says whether that load signal ever fires); otherwise
initializes immediately. -/
def loadThenInitializeA (env : Env) (scriptLoads : Bool) (s : AState) :
    Except AErr Unit × AState :=
  if !s.isSetupComplete then (.error .notSetUp, s)
  else
    match geoData env s with
    | (.error e, s1) => (.error e, s1)
    | (.ok g, s1) =>
      match userHasDoNotTrackHeader env s1 with
      | .error e => (.error e, s1)
      | .ok dnt =>
        match s1.config with
        | none => (.error .typeError, s1)
        | some cfg =>
          if !(g.country == some "US") || dnt || isPrivacyPath env.currentPath then
            let s2 := { s1 with
              gtagLog := s1.gtagLog ++ [.consentDefault 500 "denied" "denied" "denied" "denied" "denied"] }
            if cfg.csGDPRScriptId == "" then (.ok (), s2)
            else
              let s3 := { s2 with
                scripts := s2.scripts ++ ["https://cdn.cookie-script.com/s/" ++ urlEncode cfg.csGDPRScriptId ++ ".js"] }
              if scriptLoads then initializeA env s3 else (.ok (), s3)
          else initializeA env s1

/-- Every public or lifecycle operation of the Analytics module, for
stating whole-lifetime invariants. -/
inductive AnalyticsOp where
  | opSetup (opts : SetupOpts)
  | opUserId
  | opClientId
  | opSessionId
  | opGeoData
  | opTrackPageView (props : List (String × JSVal))
  | opTrackClick (target : EvTarget) (props : List (String × JSVal))
  | opTrackEvent (name : String) (props : List (String × JSVal))
  | opLoadThenInitialize (scriptLoads : Bool)
  deriving Repr

/-- The state reached by running one operation (its result discarded). -/
def stepOp (env : Env) (op : AnalyticsOp) (s : AState) : AState :=
  match op with
  | .opSetup opts => (setup env opts s).2
  | .opUserId => (userId s).2
  | .opClientId => (clientId env s).2
  | .opSessionId => (sessionId env s).2
  | .opGeoData => (geoData env s).2
  | .opTrackPageView props => (trackPageView env props s).2
  | .opTrackClick target props => (trackClick env target props s).2
  | .opTrackEvent name props => (trackEvent env name props s).2
  | .opLoadThenInitialize scriptLoads => (loadThenInitializeA env scriptLoads s).2

/-- A DOM node for the delegated-event model: an identity (standing in
for JS reference equality), whether it is an `HTMLElement`, whether it
matches the delegation selector, and its parent chain. -/
inductive DomNode where
  | mk (id : Nat) (isElem : Bool) (matchesSel : Bool) (parent : Option DomNode)
  deriving Repr

/-- Node identity. -/
def DomNode.id : DomNode → Nat
  | .mk i _ _ _ => i

/-- The `instanceof HTMLElement` test. -/
def DomNode.isElem : DomNode → Bool
  | .mk _ e _ _ => e

/-- The `target.matches(selector)` test for the fixed selector. -/
def DomNode.matchesSel : DomNode → Bool
  | .mk _ _ m _ => m

/-- The `parentNode` pointer. -/
def DomNode.parent : DomNode → Option DomNode
  | .mk _ _ _ p => p

/-- The do-while walk of the delegated listener body, started on an
element target: the returned list holds, in order, every node on which
`callback.call(target, event)` fires.  The loop advances to `parentNode`
while it is an `HTMLElement` different from `event.currentTarget`. -/
def delegatedLoop (ct : DomNode) : DomNode → List DomNode
  | .mk i e m par =>
    (if m then [DomNode.mk i e m par] else []) ++
      match par with
      | some p => if p.isElem && !(p.id == ct.id) then delegatedLoop ct p else []
      | none => []

/-- The three-argument `on(eventName, selector, callback)` handler applied
to one delivered event: a non-element (or absent) target is a no-op. -/
def dispatchDelegated (ct : DomNode) (target : Option DomNode) : List DomNode :=
  match target with
  | none => []
  | some n => if n.isElem then delegatedLoop ct n else []

/-- The chain the specification describes: the target and each of its
ancestors, in order, up to but not including the attachment point `ct`. -/
def ancestorChainUpTo (ct : DomNode) : DomNode → List DomNode
  | .mk i e m par =>
    DomNode.mk i e m par ::
      match par with
      | some p => if !(p.id == ct.id) then ancestorChainUpTo ct p else []
      | none => []

/-- State of one `debounce(callback, delay, immediate)` wrapper instance:
the pending timer (its fire time and the arguments captured by the call
that set it) and the log of underlying-callback invocations
`(time, arguments)`. -/
structure DebState (α : Type) where
  pending : Option (Nat × α) := none
  calls : List (Nat × α) := []
  deriving DecidableEq, Repr

/-- Event-loop timer delivery up to time `t`: a pending `afterDelay` whose
deadline has passed runs first (invoking the callback unless `immediate`,
then clearing the handle). -/
def debExpire (immediate : Bool) (s : DebState α) (t : Nat) : DebState α :=
  match s.pending with
  | some (ft, a) =>
    if ft ≤ t then
      { pending := none, calls := if immediate then s.calls else s.calls ++ [(ft, a)] }
    else s
  | none => s

/-- One call of the debounced wrapper at time `t` with arguments `a`:
an existing timer is cleared; with no timer and `immediate` set the
callback fires on the leading edge; either way a fresh timer is armed
`delay` in the future, capturing these arguments. -/
def debCall (immediate : Bool) (delay : Nat) (s : DebState α) (t : Nat) (a : α) : DebState α :=
  let s := debExpire immediate s t
  match s.pending with
  | some _ => { pending := some (t + delay, a), calls := s.calls }
  | none =>
    { pending := some (t + delay, a),
      calls := if immediate then s.calls ++ [(t, a)] else s.calls }

/-- Run a sequence of wrapper calls from a given state. -/
def debRunFrom (immediate : Bool) (delay : Nat) (s : DebState α)
    (evts : List (Nat × α)) : DebState α :=
  evts.foldl (fun s e => debCall immediate delay s e.1 e.2) s

/-- Run a sequence of wrapper calls from the fresh wrapper state. -/
def debRun (immediate : Bool) (delay : Nat) (evts : List (Nat × α)) : DebState α :=
  debRunFrom immediate delay {} evts

/-- Quiescence after the burst: the armed timer fires. -/
def debFlush (immediate : Bool) (s : DebState α) : DebState α :=
  match s.pending with
  | some (ft, a) =>
    { pending := none, calls := if immediate then s.calls else s.calls ++ [(ft, a)] }
  | none => s

/-- A burst: times are non-decreasing and each consecutive gap is shorter
than `d`. -/
def isBurst (d : Nat) : List (Nat × α) → Bool
  | [] => true
  | [_] => true
  | (t1, _) :: (t2, a2) :: rest =>
    t1 ≤ t2 && t2 < t1 + d && isBurst d ((t2, a2) :: rest)

/-- Last element of the non-empty list `x :: l`. -/
def lastOf (x : Nat × α) : List (Nat × α) → Nat × α
  | [] => x
  | y :: rest => lastOf y rest

/-- The `gtag('event', ...)` dispatches within a log. -/
def eventCalls (l : List GtagCall) : List GtagCall :=
  l.filter GtagCall.isEvent

/-- The disjunction of the `trackEvent` validation failures on a given
input: oversized event name, oversized resolved user id, more than 25
assembled parameters, an oversized parameter key, or an oversized string
parameter value. -/
def trackEventBad (cfg : Config) (env : Env) (name : String)
    (props : List (String × JSVal)) : Bool :=
  decide (charLength name > 40) || decide (charLength cfg.userId > 36) ||
    decide ((buildEventData cfg env cfg.userId env.gtagClientId env.gtagSessionId props).length > 25) ||
    (buildEventData cfg env cfg.userId env.gtagClientId env.gtagSessionId props).any badEntry

lemma checkEntries_ok_iff : ∀ l : List (String × JSVal),
    checkEntries l = Except.ok () ↔ l.any badEntry = false
  | [] => by simp [checkEntries]
  | (k, v) :: rest => by
    by_cases h1 : charLength k > 40
    · simp [checkEntries, h1, badEntry]
    · by_cases h2 : (v.isStr && decide (v.strLen > 100)) = true
      · simp [checkEntries, h1, h2, badEntry]
      · simp [checkEntries, h1, h2, badEntry, checkEntries_ok_iff rest]

lemma checkEntries_error_not_notSetUp : ∀ (l : List (String × JSVal)) (e : AErr),
    checkEntries l = Except.error e → e ≠ AErr.notSetUp
  | [], e => by simp [checkEntries]
  | (k, v) :: rest, e => by
    by_cases h1 : charLength k > 40
    · simp only [checkEntries, h1, if_true]
      intro h
      cases h
      simp
    · by_cases h2 : (v.isStr && decide (v.strLen > 100)) = true
      · simp only [checkEntries, h1, if_false, h2, if_true]
        intro h
        cases h
        simp
      · simp only [checkEntries, h1, if_false, h2]
        exact checkEntries_error_not_notSetUp rest e

lemma trackEvent_shape (env : Env) (name : String) (props : List (String × JSVal))
    (s : AState) (cfg : Config)
    (hsetup : s.isSetupComplete = true) (hcfg : s.config = some cfg) :
    trackEvent env name props s =
      (if charLength name > 40 then (Except.error AErr.eventNameTooLong, s)
       else if charLength cfg.userId > 36 then
         (Except.error AErr.userIdTooLong,
          { s with gtagLog := s.gtagLog ++ [GtagCall.get "client_id", GtagCall.get "session_id"] })
       else if (buildEventData cfg env cfg.userId env.gtagClientId env.gtagSessionId props).length > 25 then
         (Except.error AErr.tooManyParams,
          { s with gtagLog := s.gtagLog ++ [GtagCall.get "client_id", GtagCall.get "session_id"] })
       else
         match checkEntries (buildEventData cfg env cfg.userId env.gtagClientId env.gtagSessionId props) with
         | Except.error e =>
           (Except.error e,
            { s with gtagLog := s.gtagLog ++ [GtagCall.get "client_id", GtagCall.get "session_id"] })
         | Except.ok () =>
           (Except.ok true,
            { s with gtagLog := s.gtagLog ++
                [GtagCall.get "client_id", GtagCall.get "session_id",
                 GtagCall.event name (buildEventData cfg env cfg.userId env.gtagClientId env.gtagSessionId props)] })) := by
  simp only [trackEvent, userId, clientId, sessionId, hsetup, hcfg, Bool.not_true,
    Bool.false_eq_true, if_false, List.append_assoc, List.cons_append, List.nil_append,
    List.singleton_append]

lemma eventCalls_append (l m : List GtagCall) :
    eventCalls (l ++ m) = eventCalls l ++ eventCalls m := by
  simp [eventCalls, List.filter_append]

lemma checkEntries_error_any (l : List (String × JSVal)) (e : AErr)
    (h : checkEntries l = Except.error e) : l.any badEntry = true := by
  by_contra hfalse
  have hok := (checkEntries_ok_iff l).2 (by simpa using hfalse)
  rw [h] at hok
  cases hok

/-- C1: after setup, a `trackEvent(name, props)` call raises a validation
error with no event dispatched to the tag-manager global precisely when
the event name exceeds 40 chars, the resolved user id exceeds 36 chars,
the assembled payload has more than 25 parameters, some parameter key
exceeds 40 chars, or some string parameter value exceeds 100 chars
(`trackEventBad`); otherwise the assembled payload is dispatched exactly
once via `gtag('event', ...)` and the call resolves `true`.  (The two
`gtag('get', ...)` identifier queries are not event dispatches; the
dispatch log is compared through the `eventCalls` filter.) -/
theorem trackEvent_validation (env : Env) (name : String)
    (props : List (String × JSVal)) (s : AState) (cfg : Config)
    (hsetup : s.isSetupComplete = true) (hcfg : s.config = some cfg) :
    ((∃ e, (trackEvent env name props s).1 = Except.error e) ↔
      trackEventBad cfg env name props = true) ∧
    (trackEventBad cfg env name props = false →
      trackEvent env name props s =
        (Except.ok true,
         { s with gtagLog := s.gtagLog ++
             [GtagCall.get "client_id", GtagCall.get "session_id",
              GtagCall.event name (buildEventData cfg env cfg.userId env.gtagClientId env.gtagSessionId props)] })) ∧
    (trackEventBad cfg env name props = true →
      eventCalls (trackEvent env name props s).2.gtagLog = eventCalls s.gtagLog) := by
  rw [trackEvent_shape env name props s cfg hsetup hcfg]
  by_cases h1 : charLength name > 40
  · simp [h1, trackEventBad]
  · by_cases h2 : charLength cfg.userId > 36
    · simp [h1, h2, trackEventBad, eventCalls_append, eventCalls, GtagCall.isEvent]
    · by_cases h3 : (buildEventData cfg env cfg.userId env.gtagClientId env.gtagSessionId props).length > 25
      · simp [h1, h2, h3, trackEventBad, eventCalls_append, eventCalls, GtagCall.isEvent]
      · cases hce : checkEntries (buildEventData cfg env cfg.userId env.gtagClientId env.gtagSessionId props) with
        | error e =>
          have hany := checkEntries_error_any _ e hce
          simp [h1, h2, h3, hce, hany, trackEventBad, eventCalls_append, eventCalls, GtagCall.isEvent]
        | ok u =>
          cases u
          have hany : (buildEventData cfg env cfg.userId env.gtagClientId env.gtagSessionId props).any badEntry = false :=
            (checkEntries_ok_iff _).1 hce
          simp [h1, h2, h3, hce, hany, trackEventBad]

/-- A concrete browser environment used by witnesses. -/
def envW : Env := { gtagClientId := "cid", gtagSessionId := "sid", currentHost := "example.test" }

/-- A concrete resolved configuration used by witnesses. -/
def cfgW : Config :=
  { debug := false, csGDPRScriptId := "", ga4GtagId := "G-W",
    context := "web", subContext := "site", userId := "" }

/-- A concrete post-setup state used by witnesses. -/
def sW : AState := { isSetupComplete := true, config := some cfgW }

theorem trackEvent_validation_witness :
    sW.isSetupComplete = true ∧ sW.config = some cfgW ∧
    (((∃ e, (trackEvent envW "x_test" [] sW).1 = Except.error e) ↔
       trackEventBad cfgW envW "x_test" [] = true) ∧
     (trackEventBad cfgW envW "x_test" [] = false →
       trackEvent envW "x_test" [] sW =
         (Except.ok true,
          { sW with gtagLog := sW.gtagLog ++
              [GtagCall.get "client_id", GtagCall.get "session_id",
               GtagCall.event "x_test" (buildEventData cfgW envW cfgW.userId envW.gtagClientId envW.gtagSessionId [])] })) ∧
     (trackEventBad cfgW envW "x_test" [] = true →
       eventCalls (trackEvent envW "x_test" [] sW).2.gtagLog = eventCalls sW.gtagLog)) :=
  ⟨rfl, rfl, trackEvent_validation envW "x_test" [] sW cfgW rfl rfl⟩

/-- C2: a `setup` call on a fresh page fails with the missing-id
configuration error exactly when no GA4 measurement id resolves from the
options (or their env/cookie defaults), succeeds when one does, and any
second `setup` call — whatever the first returned — fails with the
distinct already-set-up error. -/
theorem setup_contract (env env2 : Env) (opts opts2 : SetupOpts) (s : AState)
    (hfresh : s.isSetupComplete = false) :
    (resolvedGa4GtagId env opts = "" →
      (setup env opts s).1 = Except.error AErr.missingGa4GtagId) ∧
    (resolvedGa4GtagId env opts ≠ "" → (setup env opts s).1 = Except.ok ()) ∧
    (setup env2 opts2 (setup env opts s).2).1 = Except.error AErr.alreadySetUp := by
  refine ⟨?_, ?_, ?_⟩
  · intro hid
    simp [setup, hfresh, resolvedGa4GtagId] at hid ⊢
    simp [hid]
  · intro hid
    simp [setup, hfresh, resolvedGa4GtagId] at hid ⊢
    simp [hid]
  · by_cases hid : (resolveConfig env opts).ga4GtagId = "" <;>
      simp [setup, hfresh, hid]

theorem setup_contract_witness :
    AState.initial.isSetupComplete = false ∧
    ((resolvedGa4GtagId envW { ga4GtagId := some "G-W" } = "" →
       (setup envW { ga4GtagId := some "G-W" } AState.initial).1 = Except.error AErr.missingGa4GtagId) ∧
     (resolvedGa4GtagId envW { ga4GtagId := some "G-W" } ≠ "" →
       (setup envW { ga4GtagId := some "G-W" } AState.initial).1 = Except.ok ()) ∧
     (setup envW {} (setup envW { ga4GtagId := some "G-W" } AState.initial).2).1 =
       Except.error AErr.alreadySetUp) :=
  ⟨rfl, setup_contract envW envW { ga4GtagId := some "G-W" } {} AState.initial rfl⟩

/-- C3: every public tracking or identifier operation invoked before
setup fails with the distinct not-set-up error and leaves the state —
gtag dispatch log, cookie writes, attached scripts, network fetches —
completely untouched. -/
theorem guards_before_setup (env : Env) (s : AState) (target : EvTarget)
    (name : String) (props1 props2 props3 : List (String × JSVal))
    (h : s.isSetupComplete = false) :
    userId s = (Except.error AErr.notSetUp, s) ∧
    clientId env s = (Except.error AErr.notSetUp, s) ∧
    sessionId env s = (Except.error AErr.notSetUp, s) ∧
    geoData env s = (Except.error AErr.notSetUp, s) ∧
    trackPageView env props1 s = (Except.error AErr.notSetUp, s) ∧
    trackClick env target props2 s = (Except.error AErr.notSetUp, s) ∧
    trackEvent env name props3 s = (Except.error AErr.notSetUp, s) := by
  refine ⟨?_, ?_, ?_, ?_, ?_, ?_, ?_⟩ <;>
    simp [userId, clientId, sessionId, geoData, trackPageView, trackClick, trackEvent, h]

theorem guards_before_setup_witness :
    AState.initial.isSetupComplete = false ∧
    userId AState.initial = (Except.error AErr.notSetUp, AState.initial) ∧
    trackEvent envW "x_test" [] AState.initial = (Except.error AErr.notSetUp, AState.initial) :=
  ⟨rfl,
   (guards_before_setup envW AState.initial EvTarget.nullTarget "x_test" [] [] [] rfl).1,
   (guards_before_setup envW AState.initial EvTarget.nullTarget "x_test" [] [] [] rfl).2.2.2.2.2.2⟩

lemma trackEvent_ne_notSetUp (env : Env) (name : String)
    (props : List (String × JSVal)) (s : AState) (cfg : Config)
    (hsetup : s.isSetupComplete = true) (hcfg : s.config = some cfg) :
    (trackEvent env name props s).1 ≠ Except.error AErr.notSetUp := by
  rw [trackEvent_shape env name props s cfg hsetup hcfg]
  by_cases h1 : charLength name > 40
  · simp [h1]
  · by_cases h2 : charLength cfg.userId > 36
    · simp [h1, h2]
    · by_cases h3 : (buildEventData cfg env cfg.userId env.gtagClientId env.gtagSessionId props).length > 25
      · simp [h1, h2, h3]
      · cases hce : checkEntries (buildEventData cfg env cfg.userId env.gtagClientId env.gtagSessionId props) with
        | error e =>
          have := checkEntries_error_not_notSetUp _ e hce
          simp [h1, h2, h3, hce, this]
        | ok u =>
          cases u
          simp [h1, h2, h3, hce]

/-- C9: `setup` is not atomic on failure.  A first call that resolves no
GA4 id throws the missing-id error, yet leaves the module marked set up:
a second call with any options fails with the already-set-up error, and
tracking calls pass the not-set-up guard (here: `userId` resolves, and
`trackEvent` can no longer fail with the not-set-up error) even though no
valid GA4 id was ever configured. -/
theorem setup_not_atomic (env env2 : Env) (opts opts2 : SetupOpts) (s : AState)
    (name : String) (props : List (String × JSVal))
    (hfresh : s.isSetupComplete = false)
    (hnoid : resolvedGa4GtagId env opts = "") :
    (setup env opts s).1 = Except.error AErr.missingGa4GtagId ∧
    (setup env opts s).2.isSetupComplete = true ∧
    (setup env2 opts2 (setup env opts s).2).1 = Except.error AErr.alreadySetUp ∧
    (userId (setup env opts s).2).1 = Except.ok (resolveConfig env opts).userId ∧
    (trackEvent env name props (setup env opts s).2).1 ≠ Except.error AErr.notSetUp := by
  simp only [resolvedGa4GtagId] at hnoid
  have hs2 : (setup env opts s).2 =
      { s with isSetupComplete := true, config := some (resolveConfig env opts) } := by
    simp [setup, hfresh, hnoid]
  refine ⟨?_, ?_, ?_, ?_, ?_⟩
  · simp [setup, hfresh, hnoid]
  · rw [hs2]
  · rw [hs2]; simp [setup]
  · rw [hs2]; simp [userId]
  · rw [hs2]
    exact trackEvent_ne_notSetUp env name props _ (resolveConfig env opts) rfl rfl

theorem setup_not_atomic_witness :
    AState.initial.isSetupComplete = false ∧
    resolvedGa4GtagId envW {} = "" ∧
    ((setup envW {} AState.initial).1 = Except.error AErr.missingGa4GtagId ∧
     (setup envW {} AState.initial).2.isSetupComplete = true ∧
     (setup envW { ga4GtagId := some "G-W" } (setup envW {} AState.initial).2).1 =
       Except.error AErr.alreadySetUp ∧
     (userId (setup envW {} AState.initial).2).1 = Except.ok (resolveConfig envW {}).userId ∧
     (trackEvent envW "x_test" [] (setup envW {} AState.initial).2).1 ≠
       Except.error AErr.notSetUp) :=
  ⟨rfl, rfl,
   setup_not_atomic envW envW {} { ga4GtagId := some "G-W" } AState.initial "x_test" [] rfl rfl⟩

lemma trackEvent_state_fields (env : Env) (name : String)
    (props : List (String × JSVal)) (s : AState) :
    (trackEvent env name props s).2.cacheGeoData = s.cacheGeoData ∧
    (trackEvent env name props s).2.cookiesSet = s.cookiesSet ∧
    (trackEvent env name props s).2.fetches = s.fetches := by
  cases hs : s.isSetupComplete with
  | false => simp [trackEvent, hs]
  | true =>
    cases hc : s.config with
    | none => by_cases h1 : charLength name > 40 <;> simp [trackEvent, userId, hs, hc, h1]
    | some cfg =>
      rw [trackEvent_shape env name props s cfg hs hc]
      by_cases h1 : charLength name > 40
      · simp [h1]
      · by_cases h2 : charLength cfg.userId > 36
        · simp [h1, h2]
        · by_cases h3 : (buildEventData cfg env cfg.userId env.gtagClientId env.gtagSessionId props).length > 25
          · simp [h1, h2, h3]
          · cases hce : checkEntries (buildEventData cfg env cfg.userId env.gtagClientId env.gtagSessionId props) with
            | error e => simp [h1, h2, h3, hce]
            | ok u => cases u; simp [h1, h2, h3, hce]

lemma trackPageView_cache (env : Env) (props : List (String × JSVal)) (s : AState) :
    (trackPageView env props s).2.cacheGeoData = s.cacheGeoData ∧
    (trackPageView env props s).2.fetches = s.fetches := by
  cases hs : s.isSetupComplete with
  | false => simp [trackPageView, hs]
  | true =>
    by_cases ht : truthyOpt (lookupStr env.queryVars "utm_source") = true
    · simp only [trackPageView, hs, Bool.not_true, Bool.false_eq_true, if_false, ht, if_true]
      exact ⟨(trackEvent_state_fields _ _ _ _).1, (trackEvent_state_fields _ _ _ _).2.2⟩
    · simp only [trackPageView, hs, Bool.not_true, Bool.false_eq_true, if_false, ht]
      exact ⟨(trackEvent_state_fields _ _ _ _).1, (trackEvent_state_fields _ _ _ _).2.2⟩

lemma trackClick_cache (env : Env) (target : EvTarget)
    (props : List (String × JSVal)) (s : AState) :
    (trackClick env target props s).2.cacheGeoData = s.cacheGeoData ∧
    (trackClick env target props s).2.fetches = s.fetches := by
  cases hs : s.isSetupComplete with
  | false => simp [trackClick, hs]
  | true =>
    cases target with
    | nullTarget => simp [trackClick, hs]
    | nonElement => simp [trackClick, hs]
    | element el =>
      simp only [trackClick, hs, Bool.not_true, Bool.false_eq_true, if_false]
      exact ⟨(trackEvent_state_fields _ _ _ _).1, (trackEvent_state_fields _ _ _ _).2.2⟩

lemma initializeA_cache (env : Env) (s : AState) :
    (initializeA env s).2.cacheGeoData = s.cacheGeoData ∧
    (initializeA env s).2.fetches = s.fetches := by
  cases hs : s.isSetupComplete with
  | false => simp [initializeA, hs]
  | true =>
    cases hc : s.config with
    | none => simp [initializeA, hs, hc]
    | some cfg =>
      simp only [initializeA, hs, Bool.not_true, Bool.false_eq_true, if_false, hc]
      exact ⟨(trackPageView_cache _ _ _).1, (trackPageView_cache _ _ _).2⟩

lemma loadThenInitializeA_cache_some (env : Env) (scriptLoads : Bool)
    (s : AState) (g : GeoData) (hg : s.cacheGeoData = some g) :
    (loadThenInitializeA env scriptLoads s).2.cacheGeoData = some g := by
  cases hs : s.isSetupComplete with
  | false => simp [loadThenInitializeA, hs, hg]
  | true =>
    cases hc : s.config with
    | none => simp [loadThenInitializeA, geoData, userHasDoNotTrackHeader, hs, hc, hg]
    | some cfg =>
      simp only [loadThenInitializeA, geoData, userHasDoNotTrackHeader, hs, hc, hg,
        Bool.not_true, Bool.false_eq_true, if_false]
      split
      · by_cases hcs : cfg.csGDPRScriptId = ""
        · simp [hcs, hg]
        · by_cases hl : scriptLoads = true
          · simp only [beq_iff_eq, if_neg hcs, if_pos hl]
            rw [(initializeA_cache _ _).1]
          · simp only [beq_iff_eq, if_neg hcs, if_neg hl]
      · rw [(initializeA_cache _ _).1]
        exact hg

lemma stepOp_cache_some (env : Env) (op : AnalyticsOp) (s : AState)
    (g : GeoData) (hg : s.cacheGeoData = some g) :
    (stepOp env op s).cacheGeoData = some g := by
  cases op with
  | opSetup opts =>
    by_cases hs : s.isSetupComplete = true <;>
      by_cases hid : (resolveConfig env opts).ga4GtagId = "" <;>
      simp [stepOp, setup, hs, hid, hg]
  | opUserId =>
    by_cases hs : s.isSetupComplete = true <;> cases hc : s.config <;>
      simp [stepOp, userId, hs, hc, hg]
  | opClientId =>
    by_cases hs : s.isSetupComplete = true <;> cases hc : s.config <;>
      simp [stepOp, clientId, hs, hc, hg]
  | opSessionId =>
    by_cases hs : s.isSetupComplete = true <;> cases hc : s.config <;>
      simp [stepOp, sessionId, hs, hc, hg]
  | opGeoData =>
    by_cases hs : s.isSetupComplete = true <;> simp [stepOp, geoData, hs, hg]
  | opTrackPageView props => rw [stepOp, (trackPageView_cache _ _ _).1]; exact hg
  | opTrackClick target props => rw [stepOp, (trackClick_cache _ _ _ _).1]; exact hg
  | opTrackEvent name props => rw [stepOp, (trackEvent_state_fields _ _ _ _).1]; exact hg
  | opLoadThenInitialize scriptLoads =>
    rw [stepOp]; exact loadThenInitializeA_cache_some env scriptLoads s g hg

/-- C8: `geoData` is memoized.  With a populated cache, a post-setup call
returns exactly the cached record and leaves the state untouched (in
particular no network fetch is counted); with an empty cache the first
resolving call fetches once and stores the response; and no Analytics
operation whatsoever ever replaces a populated cache for the lifetime of
the page. -/
theorem geoData_memoized (env : Env) (s : AState) (g : GeoData) (op : AnalyticsOp)
    (hsetup : s.isSetupComplete = true) :
    (s.cacheGeoData = some g → geoData env s = (Except.ok g, s)) ∧
    (s.cacheGeoData = none →
      geoData env s =
        (Except.ok env.geo, { s with cacheGeoData := some env.geo, fetches := s.fetches + 1 })) ∧
    (s.cacheGeoData = some g → (stepOp env op s).cacheGeoData = some g) := by
  refine ⟨?_, ?_, ?_⟩
  · intro hg; simp [geoData, hsetup, hg]
  · intro hg; simp [geoData, hsetup, hg]
  · intro hg; exact stepOp_cache_some env op s g hg

theorem geoData_memoized_witness :
    sW.isSetupComplete = true ∧
    (sW.cacheGeoData = some {} → geoData envW sW = (Except.ok {}, sW)) ∧
    (sW.cacheGeoData = none →
      geoData envW sW =
        (Except.ok envW.geo, { sW with cacheGeoData := some envW.geo, fetches := sW.fetches + 1 })) ∧
    (sW.cacheGeoData = some {} →
      (stepOp envW (AnalyticsOp.opTrackEvent "x_test" []) sW).cacheGeoData = some {}) :=
  ⟨rfl, geoData_memoized envW sW {} (AnalyticsOp.opTrackEvent "x_test" []) rfl⟩

lemma trackEvent_log_suffix (env : Env) (name : String)
    (props : List (String × JSVal)) (s : AState) :
    ∃ fin, (trackEvent env name props s).2.gtagLog = s.gtagLog ++ fin ∧
      ∀ c ∈ fin, c.isConsentDefault = false := by
  cases hs : s.isSetupComplete with
  | false => exact ⟨[], by simp [trackEvent, hs], by simp⟩
  | true =>
    cases hc : s.config with
    | none =>
      refine ⟨[], ?_, by simp⟩
      by_cases h1 : charLength name > 40 <;> simp [trackEvent, userId, hs, hc, h1]
    | some cfg =>
      rw [trackEvent_shape env name props s cfg hs hc]
      by_cases h1 : charLength name > 40
      · exact ⟨[], by simp [h1], by simp⟩
      · by_cases h2 : charLength cfg.userId > 36
        · exact ⟨[GtagCall.get "client_id", GtagCall.get "session_id"],
            by simp [h1, h2], by simp [GtagCall.isConsentDefault]⟩
        · by_cases h3 : (buildEventData cfg env cfg.userId env.gtagClientId env.gtagSessionId props).length > 25
          · exact ⟨[GtagCall.get "client_id", GtagCall.get "session_id"],
              by simp [h1, h2, h3], by simp [GtagCall.isConsentDefault]⟩
          · cases hce : checkEntries (buildEventData cfg env cfg.userId env.gtagClientId env.gtagSessionId props) with
            | error e =>
              exact ⟨[GtagCall.get "client_id", GtagCall.get "session_id"],
                by simp [h1, h2, h3, hce], by simp [GtagCall.isConsentDefault]⟩
            | ok u =>
              cases u
              exact ⟨[GtagCall.get "client_id", GtagCall.get "session_id",
                  GtagCall.event name (buildEventData cfg env cfg.userId env.gtagClientId env.gtagSessionId props)],
                by simp [h1, h2, h3, hce], by simp [GtagCall.isConsentDefault]⟩

lemma trackPageView_log_suffix (env : Env) (props : List (String × JSVal)) (s : AState) :
    ∃ fin, (trackPageView env props s).2.gtagLog = s.gtagLog ++ fin ∧
      ∀ c ∈ fin, c.isConsentDefault = false := by
  cases hs : s.isSetupComplete with
  | false => exact ⟨[], by simp [trackPageView, hs], by simp⟩
  | true =>
    simp only [trackPageView, hs, Bool.not_true, Bool.false_eq_true, if_false]
    split
    · exact trackEvent_log_suffix env "page_view" props _
    · exact trackEvent_log_suffix env "page_view" props s

lemma initializeA_log (env : Env) (s : AState) (cfg : Config)
    (hsetup : s.isSetupComplete = true) (hcfg : s.config = some cfg) :
    ∃ rest, (initializeA env s).2.gtagLog = s.gtagLog ++ GtagCall.js :: rest ∧
      (∀ c ∈ rest, c.isConsentDefault = false) ∧
      (initializeA env s).2.initialized = true := by
  obtain ⟨fin, hfin, hnc⟩ := trackPageView_log_suffix env []
    { isSetupComplete := true, config := some cfg, cacheGeoData := s.cacheGeoData,
      gtagLog := s.gtagLog ++ [GtagCall.js, GtagCall.configure cfg.ga4GtagId cfg.debug],
      cookiesSet := s.cookiesSet,
      scripts := s.scripts ++ ["https://www.googletagmanager.com/gtag/js?id=" ++ urlEncode cfg.ga4GtagId],
      fetches := s.fetches, clickHandlers := s.clickHandlers, initialized := s.initialized }
  refine ⟨GtagCall.configure cfg.ga4GtagId cfg.debug :: fin, ?_, ?_, ?_⟩
  · simp only [initializeA, hsetup, hcfg, Bool.not_true, Bool.false_eq_true, if_false]
    rw [hfin]
    simp
  · intro c hm
    rcases List.mem_cons.1 hm with h | h
    · subst h; rfl
    · exact hnc c h
  · simp only [initializeA, hsetup, hcfg, Bool.not_true, Bool.false_eq_true, if_false]

lemma loadThenInitializeA_shape (env : Env) (scriptLoads : Bool) (s : AState) (cfg : Config)
    (hsetup : s.isSetupComplete = true) (hcfg : s.config = some cfg)
    (hcache : s.cacheGeoData = none) :
    loadThenInitializeA env scriptLoads s =
      (if (!(env.geo.country == some "US") || env.doNotTrack || isPrivacyPath env.currentPath) then
        (if cfg.csGDPRScriptId == "" then
          (Except.ok (),
           { isSetupComplete := true, config := some cfg, cacheGeoData := some env.geo,
             gtagLog := s.gtagLog ++ [GtagCall.consentDefault 500 "denied" "denied" "denied" "denied" "denied"],
             cookiesSet := s.cookiesSet, scripts := s.scripts,
             fetches := s.fetches + 1, clickHandlers := s.clickHandlers, initialized := s.initialized })
         else if scriptLoads then
           initializeA env
             { isSetupComplete := true, config := some cfg, cacheGeoData := some env.geo,
               gtagLog := s.gtagLog ++ [GtagCall.consentDefault 500 "denied" "denied" "denied" "denied" "denied"],
               cookiesSet := s.cookiesSet,
               scripts := s.scripts ++ ["https://cdn.cookie-script.com/s/" ++ urlEncode cfg.csGDPRScriptId ++ ".js"],
               fetches := s.fetches + 1, clickHandlers := s.clickHandlers, initialized := s.initialized }
         else
           (Except.ok (),
            { isSetupComplete := true, config := some cfg, cacheGeoData := some env.geo,
              gtagLog := s.gtagLog ++ [GtagCall.consentDefault 500 "denied" "denied" "denied" "denied" "denied"],
              cookiesSet := s.cookiesSet,
              scripts := s.scripts ++ ["https://cdn.cookie-script.com/s/" ++ urlEncode cfg.csGDPRScriptId ++ ".js"],
              fetches := s.fetches + 1, clickHandlers := s.clickHandlers, initialized := s.initialized }))
       else
         initializeA env
           { isSetupComplete := true, config := some cfg, cacheGeoData := some env.geo,
             gtagLog := s.gtagLog, cookiesSet := s.cookiesSet, scripts := s.scripts,
             fetches := s.fetches + 1, clickHandlers := s.clickHandlers, initialized := s.initialized }) := by
  simp only [loadThenInitializeA, geoData, userHasDoNotTrackHeader, hsetup, hcfg, hcache,
    Bool.not_true, Bool.false_eq_true, if_false]

/-- C6: once the geo-data fetch inside `loadThenInitialize` resolves, a
visitor outside the tracked country, with do-not-track set, or on a
privacy/cookie-policy page causes the all-denied consent default (five
storage categories, 500ms `wait_for_update`) to be emitted to the tag
function before anything `initialize` emits, and `initialize` then runs
exactly when a GDPR consent-script id is configured and that script's
load signal fires; in every other case `initialize` runs immediately and
no consent default is emitted. -/
theorem consent_gating (env : Env) (s : AState) (cfg : Config) (scriptLoads : Bool)
    (hsetup : s.isSetupComplete = true) (hcfg : s.config = some cfg)
    (hcache : s.cacheGeoData = none) (hinit : s.initialized = false) :
    ((!(env.geo.country == some "US") || env.doNotTrack || isPrivacyPath env.currentPath) = true →
      (∃ rest,
        (loadThenInitializeA env scriptLoads s).2.gtagLog =
          s.gtagLog ++ GtagCall.consentDefault 500 "denied" "denied" "denied" "denied" "denied" :: rest ∧
        ((loadThenInitializeA env scriptLoads s).2.initialized = true →
          ∃ rest2, rest = GtagCall.js :: rest2)) ∧
      (loadThenInitializeA env scriptLoads s).2.initialized =
        (!(cfg.csGDPRScriptId == "") && scriptLoads)) ∧
    ((!(env.geo.country == some "US") || env.doNotTrack || isPrivacyPath env.currentPath) = false →
      (loadThenInitializeA env scriptLoads s).2.initialized = true ∧
      ∃ rest, (loadThenInitializeA env scriptLoads s).2.gtagLog = s.gtagLog ++ rest ∧
        ∀ c ∈ rest, c.isConsentDefault = false) := by
  rw [loadThenInitializeA_shape env scriptLoads s cfg hsetup hcfg hcache]
  constructor
  · intro hcond
    rw [if_pos hcond]
    by_cases hcs : cfg.csGDPRScriptId = ""
    · rw [if_pos (by simpa using hcs)]
      refine ⟨⟨[], by simp, ?_⟩, ?_⟩
      · intro hi
        rw [show ((Except.ok (), _) : Except AErr Unit × AState).2.initialized = s.initialized from rfl] at hi
        rw [hinit] at hi
        cases hi
      · simp [hcs, hinit]
    · rw [if_neg (by simpa using hcs)]
      by_cases hl : scriptLoads = true
      · rw [if_pos hl]
        obtain ⟨r2, hlog, hnc, hini⟩ := initializeA_log env
          { isSetupComplete := true, config := some cfg, cacheGeoData := some env.geo,
            gtagLog := s.gtagLog ++ [GtagCall.consentDefault 500 "denied" "denied" "denied" "denied" "denied"],
            cookiesSet := s.cookiesSet,
            scripts := s.scripts ++ ["https://cdn.cookie-script.com/s/" ++ urlEncode cfg.csGDPRScriptId ++ ".js"],
            fetches := s.fetches + 1, clickHandlers := s.clickHandlers, initialized := s.initialized }
          cfg rfl rfl
        refine ⟨⟨GtagCall.js :: r2, ?_, ?_⟩, ?_⟩
        · rw [hlog]; simp
        · intro _; exact ⟨r2, rfl⟩
        · rw [hini]; simp [hcs, hl]
      · rw [if_neg hl]
        refine ⟨⟨[], by simp, ?_⟩, ?_⟩
        · intro hi
          rw [show ((Except.ok (), _) : Except AErr Unit × AState).2.initialized = s.initialized from rfl] at hi
          rw [hinit] at hi
          cases hi
        · simp [hinit, Bool.not_eq_true] at hl ⊢
          simp [hl]
  · intro hcond
    rw [if_neg (by simp [hcond])]
    obtain ⟨r2, hlog, hnc, hini⟩ := initializeA_log env
      { isSetupComplete := true, config := some cfg, cacheGeoData := some env.geo,
        gtagLog := s.gtagLog, cookiesSet := s.cookiesSet, scripts := s.scripts,
        fetches := s.fetches + 1, clickHandlers := s.clickHandlers, initialized := s.initialized }
      cfg rfl rfl
    refine ⟨hini, GtagCall.js :: r2, ?_, ?_⟩
    · rw [hlog]
    · intro c hm
      rcases List.mem_cons.1 hm with h | h
      · subst h; rfl
      · exact hnc c h

/-- A concrete configuration with a GDPR consent-script id. -/
def cfgW2 : Config :=
  { debug := false, csGDPRScriptId := "abc", ga4GtagId := "G-W",
    context := "web", subContext := "site", userId := "" }

/-- A concrete post-setup state carrying `cfgW2`. -/
def sW2 : AState := { isSetupComplete := true, config := some cfgW2 }

/-- A concrete environment whose visitor is outside the tracked country. -/
def envW2 : Env :=
  { gtagClientId := "cid", gtagSessionId := "sid", currentHost := "example.test",
    geo := { country := some "FR" } }

theorem consent_gating_witness :
    sW2.isSetupComplete = true ∧ sW2.config = some cfgW2 ∧
    sW2.cacheGeoData = none ∧ sW2.initialized = false ∧
    (((!(envW2.geo.country == some "US") || envW2.doNotTrack || isPrivacyPath envW2.currentPath) = true →
       (∃ rest,
         (loadThenInitializeA envW2 true sW2).2.gtagLog =
           sW2.gtagLog ++ GtagCall.consentDefault 500 "denied" "denied" "denied" "denied" "denied" :: rest ∧
         ((loadThenInitializeA envW2 true sW2).2.initialized = true →
           ∃ rest2, rest = GtagCall.js :: rest2)) ∧
       (loadThenInitializeA envW2 true sW2).2.initialized =
         (!(cfgW2.csGDPRScriptId == "") && true)) ∧
     ((!(envW2.geo.country == some "US") || envW2.doNotTrack || isPrivacyPath envW2.currentPath) = false →
       (loadThenInitializeA envW2 true sW2).2.initialized = true ∧
       ∃ rest, (loadThenInitializeA envW2 true sW2).2.gtagLog = sW2.gtagLog ++ rest ∧
         ∀ c ∈ rest, c.isConsentDefault = false)) :=
  ⟨rfl, rfl, rfl, rfl, consent_gating envW2 sW2 cfgW2 true rfl rfl rfl rfl⟩

lemma ancestorChainUpTo_cons (ct p : DomNode) :
    ∃ t, ancestorChainUpTo ct p = p :: t := by
  cases p with
  | mk pi pe pm pp =>
    cases pp with
    | none => exact ⟨[], rfl⟩
    | some q =>
      by_cases hq : (q.id == ct.id) = true
      · exact ⟨[], by simp [ancestorChainUpTo, hq]⟩
      · exact ⟨ancestorChainUpTo ct q, by simp [ancestorChainUpTo, hq]⟩

lemma delegatedLoop_eq_filter (ct : DomNode) :
    ∀ n : DomNode, (ancestorChainUpTo ct n).all DomNode.isElem = true →
      delegatedLoop ct n = (ancestorChainUpTo ct n).filter DomNode.matchesSel
  | .mk i e m none, _ => by
    cases m <;> simp [delegatedLoop, ancestorChainUpTo, List.filter, DomNode.matchesSel]
  | .mk i e m (some p), h => by
    by_cases hid : (p.id == ct.id) = true
    · cases m <;>
        simp [delegatedLoop, ancestorChainUpTo, hid, List.filter, DomNode.matchesSel]
    · have hchain : ancestorChainUpTo ct (.mk i e m (some p)) =
          DomNode.mk i e m (some p) :: ancestorChainUpTo ct p := by
        simp [ancestorChainUpTo, hid]
      rw [hchain] at h
      simp only [List.all_cons, Bool.and_eq_true] at h
      obtain ⟨hhead, htail⟩ := h
      have hp : p.isElem = true := by
        obtain ⟨t, ht⟩ := ancestorChainUpTo_cons ct p
        rw [ht, List.all_cons, Bool.and_eq_true] at htail
        exact htail.1
      have ih := delegatedLoop_eq_filter ct p htail
      cases m <;>
        simp [delegatedLoop, hchain, hid, hp, ih, List.filter, DomNode.matchesSel]

/-- C4: the delegated three-argument `on(eventName, selector, callback)`
handler does nothing for a missing or non-element target; for an element
target whose ancestor chain below the attachment point consists of
elements (as it does for events delivered through the document), the
callback fires exactly once, in order, for each node matching the
selector among the target and its ancestors up to but not including the
attachment point `ct`. -/
theorem delegated_on_visits (ct : DomNode) (target : Option DomNode) (n : DomNode) :
    (target = none → dispatchDelegated ct target = []) ∧
    (target = some n → n.isElem = false → dispatchDelegated ct target = []) ∧
    (target = some n → n.isElem = true →
      (ancestorChainUpTo ct n).all DomNode.isElem = true →
      dispatchDelegated ct target = (ancestorChainUpTo ct n).filter DomNode.matchesSel) := by
  refine ⟨?_, ?_, ?_⟩
  · intro h; rw [h]; rfl
  · intro h he; rw [h]; simp [dispatchDelegated, he]
  · intro h he hall
    rw [h]
    simp only [dispatchDelegated, he, if_true]
    exact delegatedLoop_eq_filter ct n hall

/-- A concrete document node (the attachment point; not an element). -/
def docW : DomNode := .mk 0 false false none

/-- A concrete `html` element matching the selector. -/
def htmlW : DomNode := .mk 1 true true (some docW)

/-- A concrete wrapper element not matching the selector. -/
def divW : DomNode := .mk 2 true false (some htmlW)

/-- A concrete anchor element matching the selector. -/
def aW : DomNode := .mk 3 true true (some divW)

theorem delegated_on_visits_witness :
    aW.isElem = true ∧
    (ancestorChainUpTo docW aW).all DomNode.isElem = true ∧
    dispatchDelegated docW (some aW) = (ancestorChainUpTo docW aW).filter DomNode.matchesSel :=
  ⟨rfl, rfl, (delegated_on_visits docW (some aW) aW).2.2 rfl rfl rfl⟩

lemma debRunFrom_burst {α : Type} (immediate : Bool) (d : Nat) :
    ∀ (evts : List (Nat × α)) (t : Nat) (a : α) (C : List (Nat × α)),
      isBurst d ((t, a) :: evts) = true →
      debRunFrom immediate d { pending := some (t + d, a), calls := C } evts =
        { pending := some ((lastOf (t, a) evts).1 + d, (lastOf (t, a) evts).2), calls := C }
  | [], t, a, C, _ => by simp [debRunFrom, lastOf]
  | (t2, a2) :: rest, t, a, C, h => by
    simp only [isBurst, Bool.and_eq_true, decide_eq_true_eq] at h
    obtain ⟨⟨hle, hlt⟩, hburst⟩ := h
    have hnf : ¬(t + d ≤ t2) := by omega
    have hstep : debCall immediate d { pending := some (t + d, a), calls := C } t2 a2 =
        { pending := some (t2 + d, a2), calls := C } := by
      simp [debCall, debExpire, hnf]
    have ih := debRunFrom_burst immediate d rest t2 a2 C hburst
    show debRunFrom immediate d
        (debCall immediate d { pending := some (t + d, a), calls := C } t2 a2) rest = _
    rw [hstep, ih]
    rfl

/-- C5: a burst of `N ≥ 1` calls to a `debounce(cb, d)` wrapper whose
consecutive calls are separated by less than `d`: with `immediate=false`
the underlying callback runs exactly once, after the burst ends (at the
last call time plus `d`), with the arguments of the final call; with
`immediate=true` it runs exactly once, at the first call with its
arguments, and the trailing timer adds no further invocation. -/
theorem debounce_burst {α : Type} (d t1 : Nat) (a1 : α) (rest : List (Nat × α))
    (hb : isBurst d ((t1, a1) :: rest) = true) :
    (debFlush false (debRun false d ((t1, a1) :: rest))).calls =
      [((lastOf (t1, a1) rest).1 + d, (lastOf (t1, a1) rest).2)] ∧
    (debFlush true (debRun true d ((t1, a1) :: rest))).calls = [(t1, a1)] := by
  constructor
  · have hfirst : debCall false d {} t1 a1 =
        ({ pending := some (t1 + d, a1), calls := [] } : DebState α) := by
      simp [debCall, debExpire]
    show (debFlush false (debRunFrom false d (debCall false d {} t1 a1) rest)).calls = _
    rw [hfirst, debRunFrom_burst false d rest t1 a1 [] hb]
    simp [debFlush]
  · have hfirst : debCall true d {} t1 a1 =
        ({ pending := some (t1 + d, a1), calls := [(t1, a1)] } : DebState α) := by
      simp [debCall, debExpire]
    show (debFlush true (debRunFrom true d (debCall true d {} t1 a1) rest)).calls = _
    rw [hfirst, debRunFrom_burst true d rest t1 a1 [(t1, a1)] hb]
    simp [debFlush]

theorem debounce_burst_witness :
    isBurst 10 [((0 : Nat), (1 : Nat)), (5, 2), (9, 3)] = true ∧
    ((debFlush false (debRun false 10 [((0 : Nat), (1 : Nat)), (5, 2), (9, 3)])).calls = [(19, 3)] ∧
     (debFlush true (debRun true 10 [((0 : Nat), (1 : Nat)), (5, 2), (9, 3)])).calls = [(0, 1)]) :=
  ⟨by decide, debounce_burst 10 0 1 [(5, 2), (9, 3)] (by decide)⟩

lemma objSet_mem_self (o : List (String × JSVal)) (k : String) (v : JSVal) :
    (k, v) ∈ objSet o k v := by
  unfold objSet
  split
  · rename_i hany
    rw [List.any_eq_true] at hany
    obtain ⟨kv, hm, hk⟩ := hany
    rw [List.mem_map]
    exact ⟨kv, hm, by simp [hk]⟩
  · exact List.mem_append_right _ (List.mem_singleton.2 rfl)

lemma objSet_mem_preserve (o : List (String × JSVal)) (k : String) (v : JSVal)
    (k2 : String) (v2 : JSVal) (hne : (k == k2) = false) (hm : (k, v) ∈ o) :
    (k, v) ∈ objSet o k2 v2 := by
  unfold objSet
  split
  · rw [List.mem_map]
    exact ⟨(k, v), hm, by simp [hne]⟩
  · exact List.mem_append_left _ hm

lemma objSpread_mem_preserve : ∀ (adds o : List (String × JSVal)) (k : String) (v : JSVal),
    (k, v) ∈ o → adds.all (fun kv => !(kv.1 == k)) = true →
    (k, v) ∈ objSpread o adds
  | [], o, k, v, hm, _ => hm
  | (k2, v2) :: rst, o, k, v, hm, hall => by
    simp only [List.all_cons, Bool.and_eq_true] at hall
    obtain ⟨h1, h2⟩ := hall
    have hne : (k == k2) = false := by
      rw [Bool.not_eq_true'] at h1
      simp only [beq_eq_false_iff_ne] at h1 ⊢
      exact fun hh => h1 hh.symm
    show (k, v) ∈ objSpread (objSet o k2 v2) rst
    exact objSpread_mem_preserve rst (objSet o k2 v2) k v
      (objSet_mem_preserve o k v k2 v2 hne hm) h2

lemma objSpread_map_mem {β : Type} (f : β → String × JSVal) :
    ∀ (l : List β) (o : List (String × JSVal)),
      (l.map (fun b => (f b).1)).Nodup → ∀ b ∈ l, f b ∈ objSpread o (l.map f)
  | [], _, _, b, hb => absurd hb (List.not_mem_nil b)
  | hd :: tl, o, hnd, b, hb => by
    simp only [List.map_cons, List.nodup_cons] at hnd
    obtain ⟨hnotin, hnd2⟩ := hnd
    rcases List.mem_cons.1 hb with rfl | hbtl
    · show f b ∈ objSpread (objSet o (f b).1 (f b).2) (tl.map f)
      apply objSpread_mem_preserve
      · exact objSet_mem_self o (f b).1 (f b).2
      · rw [List.all_eq_true]
        intro kv hkv
        obtain ⟨x, hx, rfl⟩ := List.mem_map.1 hkv
        have hxne : (f x).1 ≠ (f b).1 := by
          intro hh
          exact hnotin (List.mem_map.2 ⟨x, hx, hh⟩)
        simp [hxne]
    · show f b ∈ objSpread (objSet o (f hd).1 (f hd).2) (tl.map f)
      exact objSpread_map_mem f tl _ hnd2 b hbtl

lemma getQueryVars_fst_sublist (env : Env) :
    ∀ names : List String, ((getQueryVars env names).map Prod.fst).Sublist names
  | [] => by simp [getQueryVars]
  | n :: rest => by
    cases h : lookupStr env.queryVars n with
    | none =>
      simp only [getQueryVars, List.filterMap_cons, h, Option.map_none']
      exact (getQueryVars_fst_sublist env rest).cons n
    | some v =>
      simp only [getQueryVars, List.filterMap_cons, h, Option.map_some', List.map_cons]
      exact (getQueryVars_fst_sublist env rest).cons₂ n

lemma x_prefix_injective : Function.Injective (fun a : String => "x_" ++ a) := by
  intro a b hab
  have hd : "x_".data ++ a.data = "x_".data ++ b.data := by
    have := congrArg String.data hab
    simpa [String.data_append] using this
  have hab2 := List.append_cancel_left hd
  cases a
  cases b
  exact congrArg String.mk hab2

lemma utm_keys_nodup (env : Env) :
    ((utmXQueryVars env).map (fun nv => "x_" ++ nv.1)).Nodup := by
  have hsub := getQueryVars_fst_sublist env utmNames
  have hnd : ((getQueryVars env utmNames).map Prod.fst).Nodup := hsub.nodup (by decide)
  have heq : (utmXQueryVars env).map (fun nv => "x_" ++ nv.1) =
      ((getQueryVars env utmNames).map Prod.fst).map (fun a => "x_" ++ a) := by
    rw [List.map_map]
    rfl
  rw [heq]
  exact hnd.map x_prefix_injective

lemma utmDims_mem_spread (env : Env) (o : List (String × JSVal)) (nv : String × String)
    (hm : nv ∈ utmXQueryVars env) :
    ("x_" ++ nv.1, JSVal.str (clip nv.2 100)) ∈ objSpread o (utmXQueryVarDimensions env) :=
  objSpread_map_mem (fun nv : String × String => ("x_" ++ nv.1, JSVal.str (clip nv.2 100)))
    (utmXQueryVars env) o (utm_keys_nodup env) nv hm

lemma buildEventData_utm_mem (cfg : Config) (env : Env) (uid cid sid : String)
    (props : List (String × JSVal)) (nv : String × String)
    (hm : nv ∈ utmXQueryVars env)
    (hfind : props.find? (fun kv => kv.1 == "x_" ++ nv.1) = none) :
    ("x_" ++ nv.1, JSVal.str (clip nv.2 100)) ∈ buildEventData cfg env uid cid sid props := by
  have hall : props.all (fun kv => !(kv.1 == "x_" ++ nv.1)) = true := by
    rw [List.all_eq_true]
    intro kv hkv
    have := List.find?_eq_none.1 hfind kv hkv
    simpa using this
  exact objSpread_mem_preserve props _ _ _ (utmDims_mem_spread env _ nv hm) hall

/-- C7 (amended): after setup, a `trackPageView` call on a URL whose
`utm_source` query variable is truthy writes the `utx_touch` cookie with
the pretty-printed JSON snapshot of the UTM-family variables before the
event can be emitted (the write happens even when the subsequent event
validation fails); when `utm_source` is absent or empty no cookie is
written; and when the call resolves `true` the emitted `page_view`
payload carries, for every present UTM variable, its `x_`-prefixed key
bound to the value clipped to 100 chars — unless the caller props, merged
last, override that key. -/
theorem trackPageView_utm (env : Env) (props : List (String × JSVal)) (s : AState)
    (cfg : Config) (hsetup : s.isSetupComplete = true) (hcfg : s.config = some cfg) :
    (truthyOpt (lookupStr env.queryVars "utm_source") = true →
      (trackPageView env props s).2.cookiesSet =
        s.cookiesSet ++ [("utx_touch", jsonStringify2 (utmXQueryVars env))]) ∧
    (truthyOpt (lookupStr env.queryVars "utm_source") = false →
      (trackPageView env props s).2.cookiesSet = s.cookiesSet) ∧
    ((trackPageView env props s).1 = Except.ok true →
      eventCalls (trackPageView env props s).2.gtagLog =
        eventCalls s.gtagLog ++
          [GtagCall.event "page_view"
            (buildEventData cfg env cfg.userId env.gtagClientId env.gtagSessionId props)] ∧
      ∀ nv ∈ utmXQueryVars env,
        props.find? (fun kv => kv.1 == "x_" ++ nv.1) = none →
        ("x_" ++ nv.1, JSVal.str (clip nv.2 100)) ∈
          buildEventData cfg env cfg.userId env.gtagClientId env.gtagSessionId props) := by
  refine ⟨?_, ?_, ?_⟩
  · intro ht
    simp only [trackPageView, hsetup, Bool.not_true, Bool.false_eq_true, if_false, ht, if_true]
    rw [(trackEvent_state_fields _ _ _ _).2.1]
  · intro ht
    simp only [trackPageView, hsetup, Bool.not_true, Bool.false_eq_true, if_false, ht,
      Bool.true_eq_false]
    rw [(trackEvent_state_fields _ _ _ _).2.1]
  · intro hok
    constructor
    · revert hok
      simp only [trackPageView, hsetup, hcfg, Bool.not_true, Bool.false_eq_true, if_false]
      split
      all_goals (
        rw [trackEvent_shape _ _ _ _ cfg (by first | rfl | exact hsetup) (by first | rfl | exact hcfg)]
        by_cases h1 : charLength "page_view" > 40
        · rw [if_pos h1]; intro hok; cases hok
        · rw [if_neg h1]
          by_cases h2 : charLength cfg.userId > 36
          · rw [if_pos h2]; intro hok; cases hok
          · rw [if_neg h2]
            by_cases h3 : (buildEventData cfg env cfg.userId env.gtagClientId env.gtagSessionId props).length > 25
            · rw [if_pos h3]; intro hok; cases hok
            · rw [if_neg h3]
              cases hce : checkEntries (buildEventData cfg env cfg.userId env.gtagClientId env.gtagSessionId props) with
              | error e => intro hok; cases hok
              | ok u =>
                cases u
                intro _
                rw [eventCalls_append]
                simp [eventCalls, GtagCall.isEvent])
    · intro nv hm hfind
      exact buildEventData_utm_mem cfg env cfg.userId env.gtagClientId env.gtagSessionId props nv hm hfind

/-- A concrete environment carrying `utm_source=test`. -/
def envU : Env :=
  { queryVars := [("utm_source", "test")], gtagClientId := "cid", gtagSessionId := "sid",
    currentHost := "example.test" }

set_option maxRecDepth 10000 in
/-- Counterexample to C7 as stated: with `utm_source=test` present, a
`trackPageView` call whose caller props themselves bind `x_utm_source`
succeeds, yet the emitted `page_view` payload carries the caller value
`"zz"` and not the UTM value `"test"` — caller props are merged last and
win, so the payload does not contain the re-keyed UTM variable. -/
theorem trackPageView_utm_counterexample :
    (trackPageView envU [("x_utm_source", JSVal.str "zz")] sW).1 = Except.ok true ∧
    (trackPageView envU [("x_utm_source", JSVal.str "zz")] sW).2.gtagLog =
      [GtagCall.get "client_id", GtagCall.get "session_id",
       GtagCall.event "page_view"
         (buildEventData cfgW envU "" "cid" "sid" [("x_utm_source", JSVal.str "zz")])] ∧
    ("x_utm_source", JSVal.str "zz") ∈
      buildEventData cfgW envU "" "cid" "sid" [("x_utm_source", JSVal.str "zz")] ∧
    ("x_utm_source", JSVal.str "test") ∉
      buildEventData cfgW envU "" "cid" "sid" [("x_utm_source", JSVal.str "zz")] := by
  refine ⟨rfl, rfl, by decide, by decide⟩

theorem trackPageView_utm_witness :
    sW.isSetupComplete = true ∧ sW.config = some cfgW ∧
    ((truthyOpt (lookupStr envU.queryVars "utm_source") = true →
       (trackPageView envU [] sW).2.cookiesSet =
         sW.cookiesSet ++ [("utx_touch", jsonStringify2 (utmXQueryVars envU))]) ∧
     (truthyOpt (lookupStr envU.queryVars "utm_source") = false →
       (trackPageView envU [] sW).2.cookiesSet = sW.cookiesSet) ∧
     ((trackPageView envU [] sW).1 = Except.ok true →
       eventCalls (trackPageView envU [] sW).2.gtagLog =
         eventCalls sW.gtagLog ++
           [GtagCall.event "page_view"
             (buildEventData cfgW envU cfgW.userId envU.gtagClientId envU.gtagSessionId [])] ∧
       ∀ nv ∈ utmXQueryVars envU,
         ([] : List (String × JSVal)).find? (fun kv => kv.1 == "x_" ++ nv.1) = none →
         ("x_" ++ nv.1, JSVal.str (clip nv.2 100)) ∈
           buildEventData cfgW envU cfgW.userId envU.gtagClientId envU.gtagSessionId [])) :=
  ⟨rfl, rfl, trackPageView_utm envU [] sW cfgW rfl rfl⟩

/-- C10: `trackClick` assumes its event target is an element.  After
setup, an event whose target is `null`, and likewise one whose target is
a node without element attribute accessors, makes the unchecked
`getAttribute` reads raise a TypeError — the call neither resolves nor
raises one of the tracking-level validation errors, and no state is
touched. -/
theorem trackClick_nonElement_typeError :
    trackClick envW EvTarget.nullTarget [] sW = (Except.error AErr.typeError, sW) ∧
    trackClick envW EvTarget.nonElement [] sW = (Except.error AErr.typeError, sW) :=
  ⟨rfl, rfl⟩
